import Mathlib

/-!
Shallow embedding of `download-book-automated.js` (nt2schoolcollectie
downloader): the spread planning, resume/download loop, PDF merge stage,
title sanitization, page-limit clamp and CLI/exit behaviour, together with
theorems settling the specification claims about them.
-/

namespace NT2

/-! ## JavaScript primitives used by the script -/

/-- Value of a list of decimal digit characters, most significant first. -/
def digitsVal (ds : List Char) : Nat :=
  ds.foldl (fun a c => a * 10 + (c.toNat - 48)) 0

/-- Model of JavaScript `parseInt(s, 10)`: skip leading whitespace, read an
optional sign and then a maximal run of decimal digits; `none` models `NaN`
(no digits found). -/
def jsParseInt (s : String) : Option Int :=
  let core : List Char → Option Int := fun l =>
    let ds := l.takeWhile Char.isDigit
    if ds.isEmpty then none else some ((digitsVal ds : Nat) : Int)
  match s.data.dropWhile Char.isWhitespace with
  | '-' :: rest => (core rest).map (fun n => -n)
  | '+' :: rest => core rest
  | cs => core cs

/-- Model of JavaScript `String.prototype.padStart(n, c)`. -/
def padStart (s : String) (n : Nat) (c : Char) : String :=
  if n ≤ s.length then s else ⟨List.replicate (n - s.length) c⟩ ++ s

/-- Model of JavaScript `Math.ceil(n / 2)` on an integer `n`
(`n / PAGES_PER_SPREAD` with `PAGES_PER_SPREAD = 2`). -/
def jsCeilHalf (n : Int) : Int :=
  if 0 ≤ n then (((n.toNat + 1) / 2 : Nat) : Int) else -(((-n).toNat / 2 : Nat) : Int)

/-- Model of JavaScript `s.startsWith("--")` as used on CLI arguments. -/
def startsWithDashDash (s : String) : Bool :=
  match s.data with
  | '-' :: '-' :: _ => true
  | _ => false

/-! ## Spread planner (lines 39, 261, 268-269, 290-293) -/

/-- Line 39: `const PAGES_PER_SPREAD = 2`. -/
def PAGES_PER_SPREAD : Nat := 2

/-- Line 268-269 and 292-293: the output filename for spread index `i`,
`spread-` followed by the index zero-padded to width 3, then `.pdf`. -/
def spreadFilename (i : Nat) : String :=
  "spread-" ++ padStart (Nat.repr i) 3 '0' ++ ".pdf"

/-- Line 261 / 380: `Math.ceil(totalPages / PAGES_PER_SPREAD)`, stated for a
general positive spread size as in the spec's planner contract. -/
def spreadCount (totalPages pagesPerSpread : Nat) : Nat :=
  (totalPages + pagesPerSpread - 1) / pagesPerSpread

/-- A planned spread task: 0-based index, first-page offset
(line 291: `pageNum = i * PAGES_PER_SPREAD`) and output filename. -/
structure SpreadTask where
  index : Nat
  pageOffset : Nat
  outputFilename : String
deriving Repr, DecidableEq

/-- The planner: the list of spread tasks the download loop (lines 290-293)
iterates over, one per index `0 .. spreadCount-1`. -/
def plan (totalPages pagesPerSpread : Nat) : List SpreadTask :=
  (List.range (spreadCount totalPages pagesPerSpread)).map fun i =>
    { index := i
      pageOffset := i * pagesPerSpread
      outputFilename := spreadFilename i }

/-! ## Title sanitization (line 220) -/

/-- Line 220: `bookInfo.title.replace(/[^a-z0-9]/gi, '-').toLowerCase()` —
every character outside `a-z`, `A-Z`, `0-9` becomes `-`, then the result is
lower-cased. -/
def sanitizeTitle (title : String) : String :=
  ⟨title.data.map fun c => if c.isAlphanum then c.toLower else '-'⟩

/-! ## Page-limit clamp (lines 254-258) -/

/-- Lines 254-258: `if (pageLimit) { totalPages = Math.min(totalPages,
pageLimit); }`. A JavaScript number is falsy exactly when it is `0` (the
`NaN` case is excluded by the CLI parse), and `null` (modelled by `none`)
is falsy. -/
def applyPageLimit (totalPages : Int) : Option Int → Int
  | none => totalPages
  | some v => if v = 0 then totalPages else min totalPages v

/-! ## The spread store -/

/-- Bytes persisted at a spread's output path, as the merge stage sees
them: a PDF with a list of pages (identified abstractly by `Nat` tags), or
a file `PDFDocument.load` rejects. -/
inductive Artifact where
  | corrupt
  | pdf (pages : List Nat)
deriving Repr, DecidableEq

/-- The on-disk spread store of one book: which artifact (if any) exists at
spread index `i`'s output path. -/
def Store : Type := Nat → Option Artifact

/-- `fs.writeFileSync` at spread `i`'s output path (line 346). -/
def updateStore (store : Store) (i : Nat) (a : Artifact) : Store :=
  fun j => if j = i then some a else store j

/-! ## Download loop (lines 264-357) -/

/-- Outcome of attempting to fetch one spread: the trigger click throws
(line 313), no new page appears within the timeout (line 325), the byte
retrieval or write throws (line 348), or a PDF is captured and saved. -/
inductive FetchResult where
  | clickError
  | timeoutError
  | retrievalError
  | success (a : Artifact)
deriving Repr, DecidableEq

/-- Observable operations of one download-loop iteration. -/
inductive DlEvent where
  | logSkip (i : Nat)
  | navigate (pageNum : Nat)
  | clickPrint (i : Nat)
  | logClickError (i : Nat)
  | logTimeout (i : Nat)
  | logSaveError (i : Nat)
  | saveSpread (i : Nat) (a : Artifact)
deriving Repr, DecidableEq

/-- One iteration of the download loop (lines 290-357) at loop index `i`,
threading the spread store and the event trace: skip if the artifact
already exists (line 296), else navigate (line 304), attempt the trigger
click and capture, and on success write the artifact (line 346). Each
failure is logged and the iteration ends without a write. -/
def iterStep (fetch : Nat → FetchResult) (acc : Store × List DlEvent) (i : Nat) :
    Store × List DlEvent :=
  match acc.1 i with
  | some _ => (acc.1, acc.2 ++ [.logSkip i])
  | none =>
    match fetch i with
    | .clickError =>
        (acc.1, acc.2 ++ [.navigate (i * PAGES_PER_SPREAD), .logClickError i])
    | .timeoutError =>
        (acc.1, acc.2 ++ [.navigate (i * PAGES_PER_SPREAD), .clickPrint i, .logTimeout i])
    | .retrievalError =>
        (acc.1, acc.2 ++ [.navigate (i * PAGES_PER_SPREAD), .clickPrint i, .logSaveError i])
    | .success a =>
        (updateStore acc.1 i a,
         acc.2 ++ [.navigate (i * PAGES_PER_SPREAD), .clickPrint i, .saveSpread i a])

/-- Lines 264-275: the pre-scan collecting indices in `0..totalSpreads-1`
whose artifact file does not exist. -/
def missingSpreadIndexes (store : Store) (totalSpreads : Nat) : List Nat :=
  (List.range totalSpreads).filter fun i => (store i).isNone

/-- Result of the download phase: final store, event trace, and whether the
early `All spreads already downloaded! Skipping to merge...` branch
(lines 281-286) was taken. -/
structure DownloadPhase where
  finalStore : Store
  events : List DlEvent
  skippedToMerge : Bool

/-- Lines 264-357: if the pre-scan finds no missing spread, skip straight
to merge with no loop iteration; otherwise run the download loop over all
indices `0..totalSpreads-1`. -/
def downloadPhase (fetch : Nat → FetchResult) (store : Store) (totalSpreads : Nat) :
    DownloadPhase :=
  if missingSpreadIndexes store totalSpreads = [] then
    { finalStore := store, events := [], skippedToMerge := true }
  else
    let r := (List.range totalSpreads).foldl (iterStep fetch) (store, [])
    { finalStore := r.1, events := r.2, skippedToMerge := false }

/-! ## Merge stage (lines 367-416) -/

/-- Observable operations of the merge loop and the final save. -/
inductive MergeEvent where
  | warnMissing (i : Nat)
  | logMergeError (i : Nat)
  | mergedSpread (i : Nat) (pages : List Nat)
  | saveOutput (pages : List Nat)
deriving Repr, DecidableEq

/-- One iteration of the merge loop (lines 382-406) at index `i`: a missing
artifact logs a warning and is skipped (lines 386-389); a load failure is
caught and logged (lines 403-405); otherwise all of the spread's pages are
appended to the merged document (lines 391-398). -/
def mergeStep (store : Store) (acc : List Nat × List MergeEvent) (i : Nat) :
    List Nat × List MergeEvent :=
  match store i with
  | none => (acc.1, acc.2 ++ [.warnMissing i])
  | some .corrupt => (acc.1, acc.2 ++ [.logMergeError i])
  | some (.pdf ps) => (acc.1 ++ ps, acc.2 ++ [.mergedSpread i ps])

/-- Result of `mergePDFs`: derived output filename (line 376), the merged
document's pages, and the event trace ending with the unconditional save
(lines 408-410). -/
structure MergeRun where
  outputFilename : String
  mergedPages : List Nat
  events : List MergeEvent
deriving Repr, DecidableEq

/-- `mergePDFs` (lines 367-416): iterate spread indices
`0..totalSpreads-1` in order, accumulate pages of each readable artifact,
then save the merged document unconditionally. Line 376:
`` `${bookTitle || bookId}.pdf` `` (an empty title string is falsy). -/
def mergePDFs (store : Store) (totalSpreads : Nat) (bookTitle bookId : String) :
    MergeRun :=
  let r := (List.range totalSpreads).foldl (mergeStep store) ([], [])
  { outputFilename := (if bookTitle = "" then bookId else bookTitle) ++ ".pdf"
    mergedPages := r.1
    events := r.2 ++ [.saveOutput r.1] }

/-! ## Book identifier extraction (lines 63-69) -/

/-- Scan for the regex `/\/boek\/(\d+)/`: find the first position where
`/boek/` is followed by at least one decimal digit, capturing the maximal
digit run there. The scan advances one character per step, so the input
length bounds the number of steps (the first argument is that bound,
keeping the recursion structural). -/
def boekIdGo : Nat → List Char → Option String
  | 0, _ => none
  | _ + 1, [] => none
  | fuel + 1, '/' :: 'b' :: 'o' :: 'e' :: 'k' :: '/' :: tail =>
      let ds := tail.takeWhile Char.isDigit
      if ds.isEmpty then boekIdGo fuel ('b' :: 'o' :: 'e' :: 'k' :: '/' :: tail)
      else some ⟨ds⟩
  | fuel + 1, _ :: rest => boekIdGo fuel rest

/-- Line 64: `bookUrl.match(/\/boek\/(\d+)/)`, returning the captured
identifier (the ISBN digits) or `none` when the URL does not match. -/
def extractBookId (url : String) : Option String :=
  boekIdGo url.data.length url.data

/-! ## One book's pipeline (`downloadBook`, lines 62-417) -/

/-- The externally observed environment of one `downloadBook` run: what the
page evaluations report, what the detector finds, the user's manual reply,
the per-spread fetch outcomes and the initial spread store. -/
structure Env where
  hasPrintBefore : Bool
  hasLoginForm : Bool
  hasLoginText : Bool
  hasPrintAfter : Bool
  detectedTitle : Option String
  detectedPages : Option Nat
  manualReply : String
  fetch : Nat → FetchResult
  initialStore : Store

/-- Lines 121-133: `needsLogin` is true when the print button is absent and
a login form or login text is present. -/
def needsLogin (env : Env) : Bool :=
  !env.hasPrintBefore && (env.hasLoginForm || env.hasLoginText)

/-- How one `downloadBook` call ends: `invalidUrl` is the early `return` at
line 67 (the process keeps running); `exitNoAccess` is `process.exit(1)` at
line 157; `exitBadPageCount` is `process.exit(1)` at line 245; `completed`
reaches the merge stage. -/
inductive BookOutcome where
  | invalidUrl
  | exitNoAccess
  | exitBadPageCount
  | completed
deriving Repr, DecidableEq

/-- Observable result of one `downloadBook` call. -/
structure BookRun where
  outcome : BookOutcome
  promptedLogin : Bool
  store : Store
  dlEvents : List DlEvent
  skippedToMerge : Bool
  merge : Option MergeRun

/-- Lines 219-225: the `bookTitle` used for the merged output — the
sanitized detected title, or the book id when no (non-empty) title was
detected. -/
def bookTitleOf (env : Env) (bookId : String) : String :=
  match env.detectedTitle with
  | some t => if t = "" then bookId else sanitizeTitle t
  | none => bookId

/-- Lines 227-252: the total page count — the detected value, else the
manually entered reply, which is rejected (`none`, modelling
`process.exit(1)`) when it parses as `NaN` or is not positive. -/
def totalPagesOf (env : Env) : Option Int :=
  match env.detectedPages with
  | some n => some (n : Int)
  | none =>
      match jsParseInt env.manualReply with
      | none => none
      | some v => if v ≤ 0 then none else some v

/-- `downloadBook(bookUrl, pageLimit)` (lines 62-417): extract the book id,
(possibly) prompt for login, verify the print button, detect title and
page count (manual prompt fallback), apply the page limit, run the
download phase and then the merge stage. -/
def downloadBook (bookUrl : String) (pageLimit : Option Int) (env : Env) : BookRun :=
  match extractBookId bookUrl with
  | none =>
      { outcome := .invalidUrl, promptedLogin := false, store := env.initialStore
        dlEvents := [], skippedToMerge := false, merge := none }
  | some bookId =>
      let prompted := needsLogin env
      if !env.hasPrintAfter then
        { outcome := .exitNoAccess, promptedLogin := prompted, store := env.initialStore
          dlEvents := [], skippedToMerge := false, merge := none }
      else
        let bookTitle := bookTitleOf env bookId
        let totalPages? : Option Int := totalPagesOf env
        match totalPages? with
        | none =>
            { outcome := .exitBadPageCount, promptedLogin := prompted
              store := env.initialStore, dlEvents := [], skippedToMerge := false
              merge := none }
        | some tp0 =>
            let totalPages := applyPageLimit tp0 pageLimit
            let totalSpreads := (jsCeilHalf totalPages).toNat
            let ph := downloadPhase env.fetch env.initialStore totalSpreads
            let mg := mergePDFs ph.finalStore totalSpreads bookTitle bookId
            { outcome := .completed, promptedLogin := prompted, store := ph.finalStore
              dlEvents := ph.events, skippedToMerge := ph.skippedToMerge
              merge := some mg }

/-! ## CLI argument parsing and process exit behaviour (lines 6-37, 419-437) -/

/-- The parsed CLI configuration (lines 6-19). -/
structure CliConfig where
  bookUrls : List String
  pageLimit : Option Int
  clearCache : Bool
  parallel : Bool
deriving Repr, DecidableEq

/-- Lines 6-19: split flags from positionals, detect the page-limit form
(second positional parses as a number and has no `/`), and collect book
URLs (positionals containing `/`, or just the first positional in
page-limit form). -/
def parseCli (args : List String) : CliConfig :=
  let positional := args.filter fun a => !(startsWithDashDash a)
  let flags := args.filter fun a => startsWithDashDash a
  let second := positional.getD 1 ""
  let hasPageLimit :=
    decide (2 ≤ positional.length) && (jsParseInt second).isSome &&
      !(second.data.contains '/')
  { bookUrls :=
      if hasPageLimit then [positional.getD 0 ""]
      else positional.filter fun a => a.data.contains '/'
    pageLimit := if hasPageLimit then jsParseInt second else none
    clearCache := flags.contains "--clear-cache"
    parallel := flags.contains "--parallel" }

/-- How the whole process ends: usage message and `process.exit(1)` (lines
21-37), a `process.exit(1)` inside some book's pipeline, or normal
completion (exit status 0). -/
inductive CliOutcome where
  | usageExit
  | exitDuringBook (url : String) (run : BookRun)
  | success (runs : List (String × BookRun))

/-- Whether a book outcome is a `process.exit` call (terminating the whole
process) rather than a plain return. -/
def BookOutcome.isProcessExit : BookOutcome → Bool
  | .exitNoAccess => true
  | .exitBadPageCount => true
  | _ => false

/-- Lines 427-432: process the book URLs in order; a `process.exit` inside
one book terminates the process, otherwise continue to the next book. -/
def runBooks (envs : String → Env) (limit : Option Int) :
    List String → List (String × BookRun) → CliOutcome
  | [], acc => .success acc.reverse
  | u :: rest, acc =>
      let r := downloadBook u limit (envs u)
      if r.outcome.isProcessExit then .exitDuringBook u r
      else runBooks envs limit rest ((u, r) :: acc)

/-- The whole invocation (lines 6-37 and 419-437): parse arguments, exit
with the usage message when no book URL remains, else run the books. -/
def runCli (args : List String) (envs : String → Env) : CliOutcome :=
  let cfg := parseCli args
  if cfg.bookUrls.isEmpty then .usageExit
  else runBooks envs cfg.pageLimit cfg.bookUrls []

/-- The process exit status of an invocation. -/
def exitCode : CliOutcome → Nat
  | .usageExit => 1
  | .exitDuringBook _ _ => 1
  | .success _ => 0

/-- Whether the usage message was printed. -/
def usageShown : CliOutcome → Bool
  | .usageExit => true
  | _ => false

/-! ## Characterization of the merge loop -/

/-- The pages spread `i` contributes to the merged document: all of its
pages when its artifact is readable, none otherwise. -/
def pagesAt (store : Store) (i : Nat) : List Nat :=
  match store i with
  | some (.pdf ps) => ps
  | _ => []

/-- The single event the merge loop emits at index `i`. -/
def mergeEventFor (store : Store) (i : Nat) : MergeEvent :=
  match store i with
  | none => .warnMissing i
  | some .corrupt => .logMergeError i
  | some (.pdf ps) => .mergedSpread i ps

theorem mergeStep_eq (store : Store) (p : List Nat) (e : List MergeEvent) (i : Nat) :
    mergeStep store (p, e) i = (p ++ pagesAt store i, e ++ [mergeEventFor store i]) := by
  unfold mergeStep pagesAt mergeEventFor
  cases h : store i with
  | none => simp
  | some a => cases a <;> simp

theorem mergeStep_foldl (store : Store) (l : List Nat) :
    ∀ (p : List Nat) (e : List MergeEvent),
      l.foldl (mergeStep store) (p, e) =
        (p ++ l.flatMap (pagesAt store), e ++ l.map (mergeEventFor store)) := by
  induction l with
  | nil => intro p e; simp
  | cons i t ih =>
      intro p e
      simp only [List.foldl_cons, List.flatMap_cons, List.map_cons]
      rw [mergeStep_eq, ih]
      simp

theorem mergePDFs_mergedPages (store : Store) (k : Nat) (t id : String) :
    (mergePDFs store k t id).mergedPages = (List.range k).flatMap (pagesAt store) := by
  unfold mergePDFs
  rw [mergeStep_foldl]
  simp

theorem mergePDFs_events (store : Store) (k : Nat) (t id : String) :
    (mergePDFs store k t id).events =
      (List.range k).map (mergeEventFor store) ++
        [.saveOutput ((List.range k).flatMap (pagesAt store))] := by
  unfold mergePDFs
  rw [mergeStep_foldl]
  simp [mergePDFs_mergedPages]

theorem flatMap_congr_of_mem {l : List Nat} {f g : Nat → List Nat}
    (h : ∀ i ∈ l, f i = g i) : l.flatMap f = l.flatMap g := by
  induction l with
  | nil => rfl
  | cons a t ih =>
      simp only [List.flatMap_cons]
      rw [h a (by simp), ih fun i hi => h i (by simp [hi])]

/-- C3: merge completeness — when the artifacts for spreads `0..k-1` are
all present and readable (spread `i` holding pages `ps i`), the merged
document is exactly the concatenation of the spreads' pages in ascending
spread-index order, and its page count is the sum of the individual page
counts. -/
theorem merge_completeness (store : Store) (k : Nat) (t id : String)
    (ps : Nat → List Nat) (hall : ∀ i, i < k → store i = some (.pdf (ps i))) :
    (mergePDFs store k t id).mergedPages = (List.range k).flatMap ps ∧
    (mergePDFs store k t id).mergedPages.length =
      ((List.range k).map fun i => (ps i).length).sum := by
  have hpages : ∀ i ∈ List.range k, pagesAt store i = ps i := by
    intro i hi
    rw [List.mem_range] at hi
    simp [pagesAt, hall i hi]
  have h1 : (mergePDFs store k t id).mergedPages = (List.range k).flatMap ps := by
    rw [mergePDFs_mergedPages]
    exact flatMap_congr_of_mem hpages
  refine ⟨h1, ?_⟩
  rw [h1, List.length_flatMap]
  rfl

/-- Witness for C3 at `k = 3`, every spread holding the single page `7`. -/
theorem merge_completeness_witness :
    (mergePDFs (fun _ => some (Artifact.pdf [7])) 3 "t" "id").mergedPages =
        (List.range 3).flatMap (fun _ => [7]) ∧
    (mergePDFs (fun _ => some (Artifact.pdf [7])) 3 "t" "id").mergedPages.length =
        ((List.range 3).map fun _ => ([7] : List Nat).length).sum :=
  merge_completeness _ 3 "t" "id" (fun _ => [7]) (fun _ _ => rfl)

/-- C4: merge resilience — when spread `m`'s artifact is missing, the merge
loop still visits every index and ends in the unconditional save, exactly
one `Warning: Missing ...` message referencing index `m` is logged, and
spread `m` contributes no pages to the merged document. -/
theorem merge_resilience (store : Store) (k m : Nat) (t id : String)
    (hmk : m < k) (hmiss : store m = none) :
    (mergePDFs store k t id).events =
      (List.range k).map (mergeEventFor store) ++
        [.saveOutput ((mergePDFs store k t id).mergedPages)] ∧
    (mergePDFs store k t id).events.count (.warnMissing m) = 1 ∧
    (mergePDFs store k t id).mergedPages = (List.range k).flatMap (pagesAt store) ∧
    pagesAt store m = [] := by
  have hev := mergePDFs_events store k t id
  have hpg := mergePDFs_mergedPages store k t id
  refine ⟨by rw [hev, hpg], ?_, hpg, by simp [pagesAt, hmiss]⟩
  rw [hev, List.count_append]
  have h2 : List.count (MergeEvent.warnMissing m)
      [MergeEvent.saveOutput ((List.range k).flatMap (pagesAt store))] = 0 := by
    simp
  rw [h2, Nat.add_zero, List.count_eq_countP, List.countP_map]
  have hcongr : ((List.range k).countP ((· == MergeEvent.warnMissing m) ∘ mergeEventFor store)) =
      ((List.range k).countP (· == m)) := by
    apply List.countP_congr
    intro x _
    simp only [Function.comp_apply, beq_iff_eq]
    constructor
    · intro hx
      cases hs : store x with
      | none => rw [mergeEventFor, hs] at hx; exact MergeEvent.warnMissing.inj hx
      | some a =>
          cases a <;> rw [mergeEventFor, hs] at hx <;> simp at hx
    · intro hx
      subst hx
      rw [mergeEventFor, hmiss]
  rw [hcongr, ← List.count_eq_countP]
  exact List.count_eq_one_of_mem (List.nodup_range k) (List.mem_range.mpr hmk)

/-- Witness for C4 at `k = 5` with spread `2` missing. -/
theorem merge_resilience_witness :
    (mergePDFs (fun i => if i = 2 then none else some (.pdf [i])) 5 "t" "id").events =
      (List.range 5).map (mergeEventFor (fun i => if i = 2 then none else some (.pdf [i]))) ++
        [.saveOutput ((mergePDFs (fun i => if i = 2 then none else some (.pdf [i])) 5 "t" "id").mergedPages)] ∧
    (mergePDFs (fun i => if i = 2 then none else some (.pdf [i])) 5 "t" "id").events.count
        (.warnMissing 2) = 1 ∧
    (mergePDFs (fun i => if i = 2 then none else some (.pdf [i])) 5 "t" "id").mergedPages =
      (List.range 5).flatMap (pagesAt (fun i => if i = 2 then none else some (.pdf [i]))) ∧
    pagesAt (fun i => if i = 2 then none else some (.pdf [i])) 2 = [] :=
  merge_resilience _ 5 2 "t" "id" (by decide) rfl

/-- C10: the merge stage's final save is unconditional — the event trace
always ends with saving the merged document, and when every spread
artifact is missing or unreadable the saved document has zero pages. -/
theorem merge_save_unconditional (store : Store) (k : Nat) (t id : String) :
    ((mergePDFs store k t id).events).getLast? =
      some (.saveOutput ((mergePDFs store k t id).mergedPages)) ∧
    (mergePDFs store k t id).outputFilename =
      (if t = "" then id else t) ++ ".pdf" ∧
    ((∀ i, i < k → store i = none ∨ store i = some .corrupt) →
      (mergePDFs store k t id).mergedPages = []) := by
  refine ⟨?_, rfl, ?_⟩
  · rw [mergePDFs_events, mergePDFs_mergedPages]
    exact List.getLast?_concat _
  · intro h
    rw [mergePDFs_mergedPages]
    have hz : ∀ i ∈ List.range k, pagesAt store i = ([] : List Nat) := by
      intro i hi
      rw [List.mem_range] at hi
      rcases h i hi with h' | h' <;> simp [pagesAt, h']
    rw [flatMap_congr_of_mem hz]
    simp

/-- Witness for C10 at `k = 2` with every artifact missing. -/
theorem merge_save_unconditional_witness :
    ((mergePDFs (fun _ => none) 2 "t" "id").events).getLast? =
      some (.saveOutput ((mergePDFs (fun _ => none) 2 "t" "id").mergedPages)) ∧
    (mergePDFs (fun _ => none) 2 "t" "id").outputFilename =
      (if "t" = "" then "id" else "t") ++ ".pdf" ∧
    (mergePDFs (fun _ => none) 2 "t" "id").mergedPages = [] :=
  ⟨(merge_save_unconditional (fun _ => none) 2 "t" "id").1,
   (merge_save_unconditional (fun _ => none) 2 "t" "id").2.1,
   (merge_save_unconditional (fun _ => none) 2 "t" "id").2.2 (fun _ _ => Or.inl rfl)⟩

/-! ## Characterization of the download loop -/

/-- The events of one download-loop iteration at index `i`, as a function
of the store at loop entry (iteration `i` reads only index `i`, which no
earlier iteration writes). -/
def iterEvents (store : Store) (fetch : Nat → FetchResult) (i : Nat) : List DlEvent :=
  match store i with
  | some _ => [.logSkip i]
  | none =>
    match fetch i with
    | .clickError => [.navigate (i * PAGES_PER_SPREAD), .logClickError i]
    | .timeoutError => [.navigate (i * PAGES_PER_SPREAD), .clickPrint i, .logTimeout i]
    | .retrievalError => [.navigate (i * PAGES_PER_SPREAD), .clickPrint i, .logSaveError i]
    | .success a => [.navigate (i * PAGES_PER_SPREAD), .clickPrint i, .saveSpread i a]

/-- The spread store after the download loop has processed indices
`0..k-1`: a previously missing index gets its artifact exactly when its
fetch succeeded. -/
def storeAfter (store : Store) (fetch : Nat → FetchResult) (k : Nat) : Store :=
  fun j =>
    if j < k then
      match store j, fetch j with
      | none, .success a => some a
      | s, _ => s
    else store j

theorem storeAfter_zero (store : Store) (fetch : Nat → FetchResult) :
    storeAfter store fetch 0 = store := by
  funext j
  simp [storeAfter]

theorem storeAfter_self (store : Store) (fetch : Nat → FetchResult) (k : Nat) :
    storeAfter store fetch k k = store k := by
  simp [storeAfter]

theorem storeAfter_succ_stable (store : Store) (fetch : Nat → FetchResult) (k : Nat)
    (h : ∀ a, store k = none → fetch k ≠ .success a) :
    storeAfter store fetch (k + 1) = storeAfter store fetch k := by
  funext j
  unfold storeAfter
  by_cases hj1 : j < k
  · simp [hj1, Nat.lt_succ_of_lt hj1]
  · by_cases hj2 : j < k + 1
    · have hjk : j = k := by omega
      subst hjk
      simp only [hj1, hj2, if_pos, if_neg, if_false, if_true]
    · simp [hj1, hj2]

theorem storeAfter_succ_update (store : Store) (fetch : Nat → FetchResult) (k : Nat)
    (a : Artifact) (hs : store k = none) (hf : fetch k = .success a) :
    storeAfter store fetch (k + 1) = updateStore (storeAfter store fetch k) k a := by
  funext j
  unfold storeAfter updateStore
  by_cases hj : j = k
  · subst hj
    simp [Nat.lt_succ_self, hs, hf]
  · by_cases hj1 : j < k
    · simp [hj, hj1, Nat.lt_succ_of_lt hj1]
    · have hj2 : ¬ j < k + 1 := by omega
      simp [hj, hj1, hj2]

theorem iterStep_at (store : Store) (fetch : Nat → FetchResult) (k : Nat)
    (e : List DlEvent) :
    iterStep fetch (storeAfter store fetch k, e) k =
      (storeAfter store fetch (k + 1), e ++ iterEvents store fetch k) := by
  have hself := storeAfter_self store fetch k
  cases hs : store k with
  | some a =>
      have h1 : iterStep fetch (storeAfter store fetch k, e) k =
          (storeAfter store fetch k, e ++ [.logSkip k]) := by
        unfold iterStep
        dsimp only
        rw [hself, hs]
      have h2 : iterEvents store fetch k = [.logSkip k] := by
        unfold iterEvents
        rw [hs]
      rw [h1, h2, storeAfter_succ_stable store fetch k (fun a' hn => absurd hn (by simp [hs]))]
  | none =>
      cases hf : fetch k with
      | clickError =>
          have h1 : iterStep fetch (storeAfter store fetch k, e) k =
              (storeAfter store fetch k,
               e ++ [.navigate (k * PAGES_PER_SPREAD), .logClickError k]) := by
            unfold iterStep
            dsimp only
            rw [hself, hs, hf]
          have h2 : iterEvents store fetch k =
              [.navigate (k * PAGES_PER_SPREAD), .logClickError k] := by
            unfold iterEvents
            rw [hs, hf]
          rw [h1, h2, storeAfter_succ_stable store fetch k (fun a' _ => by simp [hf])]
      | timeoutError =>
          have h1 : iterStep fetch (storeAfter store fetch k, e) k =
              (storeAfter store fetch k,
               e ++ [.navigate (k * PAGES_PER_SPREAD), .clickPrint k, .logTimeout k]) := by
            unfold iterStep
            dsimp only
            rw [hself, hs, hf]
          have h2 : iterEvents store fetch k =
              [.navigate (k * PAGES_PER_SPREAD), .clickPrint k, .logTimeout k] := by
            unfold iterEvents
            rw [hs, hf]
          rw [h1, h2, storeAfter_succ_stable store fetch k (fun a' _ => by simp [hf])]
      | retrievalError =>
          have h1 : iterStep fetch (storeAfter store fetch k, e) k =
              (storeAfter store fetch k,
               e ++ [.navigate (k * PAGES_PER_SPREAD), .clickPrint k, .logSaveError k]) := by
            unfold iterStep
            dsimp only
            rw [hself, hs, hf]
          have h2 : iterEvents store fetch k =
              [.navigate (k * PAGES_PER_SPREAD), .clickPrint k, .logSaveError k] := by
            unfold iterEvents
            rw [hs, hf]
          rw [h1, h2, storeAfter_succ_stable store fetch k (fun a' _ => by simp [hf])]
      | success a =>
          have h1 : iterStep fetch (storeAfter store fetch k, e) k =
              (updateStore (storeAfter store fetch k) k a,
               e ++ [.navigate (k * PAGES_PER_SPREAD), .clickPrint k, .saveSpread k a]) := by
            unfold iterStep
            dsimp only
            rw [hself, hs, hf]
          have h2 : iterEvents store fetch k =
              [.navigate (k * PAGES_PER_SPREAD), .clickPrint k, .saveSpread k a] := by
            unfold iterEvents
            rw [hs, hf]
          rw [h1, h2, storeAfter_succ_update store fetch k a hs hf]

theorem iterStep_foldl (store : Store) (fetch : Nat → FetchResult) :
    ∀ (k : Nat) (e : List DlEvent),
      (List.range k).foldl (iterStep fetch) (store, e) =
        (storeAfter store fetch k,
         e ++ (List.range k).flatMap (iterEvents store fetch)) := by
  intro k
  induction k with
  | zero =>
      intro e
      simp [storeAfter_zero]
  | succ n ih =>
      intro e
      rw [List.range_succ, List.foldl_append, ih, List.foldl_cons, List.foldl_nil,
        iterStep_at]
      simp [List.flatMap_append]

theorem downloadPhase_all_present (fetch : Nat → FetchResult) (store : Store) (k : Nat)
    (h : ∀ i, i < k → (store i).isSome = true) :
    downloadPhase fetch store k =
      { finalStore := store, events := [], skippedToMerge := true } := by
  have hm : missingSpreadIndexes store k = [] := by
    unfold missingSpreadIndexes
    rw [List.filter_eq_nil_iff]
    intro i hi
    rw [List.mem_range] at hi
    have hs := h i hi
    cases hst : store i with
    | none => rw [hst] at hs; simp at hs
    | some a => simp [hst]
  unfold downloadPhase
  rw [hm]
  simp

theorem downloadPhase_not_all_present (fetch : Nat → FetchResult) (store : Store)
    (k m : Nat) (hm : m < k) (hmiss : store m = none) :
    downloadPhase fetch store k =
      { finalStore := storeAfter store fetch k
        events := (List.range k).flatMap (iterEvents store fetch)
        skippedToMerge := false } := by
  have hne : missingSpreadIndexes store k ≠ [] := by
    have : m ∈ missingSpreadIndexes store k := by
      unfold missingSpreadIndexes
      rw [List.mem_filter]
      exact ⟨List.mem_range.mpr hm, by simp [hmiss]⟩
    exact List.ne_nil_of_mem this
  unfold downloadPhase
  rw [if_neg hne, iterStep_foldl]
  simp

theorem downloadBook_run (url : String) (limit : Option Int) (env : Env) (id : String)
    (tp0 : Int) (hurl : extractBookId url = some id)
    (hacc : env.hasPrintAfter = true) (htp : totalPagesOf env = some tp0) :
    downloadBook url limit env =
      { outcome := .completed
        promptedLogin := needsLogin env
        store := (downloadPhase env.fetch env.initialStore
          ((jsCeilHalf (applyPageLimit tp0 limit)).toNat)).finalStore
        dlEvents := (downloadPhase env.fetch env.initialStore
          ((jsCeilHalf (applyPageLimit tp0 limit)).toNat)).events
        skippedToMerge := (downloadPhase env.fetch env.initialStore
          ((jsCeilHalf (applyPageLimit tp0 limit)).toNat)).skippedToMerge
        merge := some (mergePDFs
          (downloadPhase env.fetch env.initialStore
            ((jsCeilHalf (applyPageLimit tp0 limit)).toNat)).finalStore
          ((jsCeilHalf (applyPageLimit tp0 limit)).toNat) (bookTitleOf env id) id) } := by
  unfold downloadBook
  rw [hurl, hacc, htp]
  rfl

/-- C2: resume idempotence — when an artifact already exists at every
planned spread's output path, the download loop performs no operation at
all (no navigation, no trigger click, no store write), the early
skip-to-merge branch is taken, the spread store is untouched, and the
pipeline proceeds to the merge stage on that untouched store. -/
theorem resume_idempotence (url : String) (limit : Option Int) (env : Env)
    (id : String) (tp0 : Int) (hurl : extractBookId url = some id)
    (hacc : env.hasPrintAfter = true) (htp : totalPagesOf env = some tp0)
    (hall : ∀ i, i < (jsCeilHalf (applyPageLimit tp0 limit)).toNat →
      (env.initialStore i).isSome = true) :
    (downloadBook url limit env).outcome = .completed ∧
    (downloadBook url limit env).dlEvents = [] ∧
    (downloadBook url limit env).skippedToMerge = true ∧
    (∀ j, (downloadBook url limit env).store j = env.initialStore j) ∧
    (downloadBook url limit env).merge =
      some (mergePDFs env.initialStore ((jsCeilHalf (applyPageLimit tp0 limit)).toNat)
        (bookTitleOf env id) id) := by
  rw [downloadBook_run url limit env id tp0 hurl hacc htp,
    downloadPhase_all_present env.fetch env.initialStore _ hall]
  exact ⟨rfl, rfl, rfl, fun _ => rfl, rfl⟩

/-- Witness for C2: a 2-spread book whose two artifacts both exist — the
run reports no download event and an untouched store. -/
theorem resume_idempotence_witness :
    (downloadBook "https://www.nt2schoolcollectie.nl/boek/42" none
        { hasPrintBefore := true, hasLoginForm := false, hasLoginText := false
          hasPrintAfter := true, detectedTitle := none, detectedPages := some 4
          manualReply := "", fetch := fun _ => .clickError
          initialStore := fun _ => some (.pdf [0]) }).outcome = .completed ∧
    (downloadBook "https://www.nt2schoolcollectie.nl/boek/42" none
        { hasPrintBefore := true, hasLoginForm := false, hasLoginText := false
          hasPrintAfter := true, detectedTitle := none, detectedPages := some 4
          manualReply := "", fetch := fun _ => .clickError
          initialStore := fun _ => some (.pdf [0]) }).dlEvents = [] ∧
    (downloadBook "https://www.nt2schoolcollectie.nl/boek/42" none
        { hasPrintBefore := true, hasLoginForm := false, hasLoginText := false
          hasPrintAfter := true, detectedTitle := none, detectedPages := some 4
          manualReply := "", fetch := fun _ => .clickError
          initialStore := fun _ => some (.pdf [0]) }).skippedToMerge = true ∧
    (∀ j, (downloadBook "https://www.nt2schoolcollectie.nl/boek/42" none
        { hasPrintBefore := true, hasLoginForm := false, hasLoginText := false
          hasPrintAfter := true, detectedTitle := none, detectedPages := some 4
          manualReply := "", fetch := fun _ => .clickError
          initialStore := fun _ => some (.pdf [0]) }).store j =
      (fun _ => some (Artifact.pdf [0])) j) ∧
    (downloadBook "https://www.nt2schoolcollectie.nl/boek/42" none
        { hasPrintBefore := true, hasLoginForm := false, hasLoginText := false
          hasPrintAfter := true, detectedTitle := none, detectedPages := some 4
          manualReply := "", fetch := fun _ => .clickError
          initialStore := fun _ => some (.pdf [0]) }).merge =
      some (mergePDFs (fun _ => some (.pdf [0]))
        ((jsCeilHalf (applyPageLimit 4 none)).toNat)
        (bookTitleOf
          { hasPrintBefore := true, hasLoginForm := false, hasLoginText := false
            hasPrintAfter := true, detectedTitle := none, detectedPages := some 4
            manualReply := "", fetch := fun _ => .clickError
            initialStore := fun _ => some (.pdf [0]) } "42") "42") :=
  resume_idempotence _ none _ "42" 4 rfl rfl rfl (fun _ _ => rfl)

theorem saveSpread_iterEvents {store : Store} {fetch : Nat → FetchResult} {j i : Nat}
    {a : Artifact} (h : DlEvent.saveSpread i a ∈ iterEvents store fetch j) :
    j = i ∧ store j = none ∧ fetch j = .success a := by
  unfold iterEvents at h
  cases hs : store j with
  | some b => rw [hs] at h; simp at h
  | none =>
      rw [hs] at h
      cases hf : fetch j with
      | clickError => rw [hf] at h; simp at h
      | timeoutError => rw [hf] at h; simp at h
      | retrievalError => rw [hf] at h; simp at h
      | success b =>
          rw [hf] at h
          simp at h
          obtain ⟨h1, h2⟩ := h
          exact ⟨h1.symm, rfl, by rw [h2]⟩

theorem iterEvents_ne_nil (store : Store) (fetch : Nat → FetchResult) (j : Nat) :
    iterEvents store fetch j ≠ [] := by
  unfold iterEvents
  cases store j with
  | some a => simp
  | none => cases fetch j <;> simp

/-- C7: per-spread failure containment — a spread whose trigger click
throws, whose capture times out, or whose byte retrieval fails is logged
with the corresponding error, its artifact stays absent, and the loop
still emits the events of every task (it is not aborted). -/
theorem spread_failure_containment (store : Store) (fetch : Nat → FetchResult)
    (k i : Nat) (hik : i < k) (hmiss : store i = none)
    (hfail : fetch i = .clickError ∨ fetch i = .timeoutError ∨ fetch i = .retrievalError) :
    (downloadPhase fetch store k).finalStore i = none ∧
    (∀ a, DlEvent.saveSpread i a ∉ (downloadPhase fetch store k).events) ∧
    (fetch i = .clickError → DlEvent.logClickError i ∈ (downloadPhase fetch store k).events) ∧
    (fetch i = .timeoutError → DlEvent.logTimeout i ∈ (downloadPhase fetch store k).events) ∧
    (fetch i = .retrievalError → DlEvent.logSaveError i ∈ (downloadPhase fetch store k).events) ∧
    (downloadPhase fetch store k).events = (List.range k).flatMap (iterEvents store fetch) ∧
    (∀ j, j < k → iterEvents store fetch j ≠ []) ∧
    (downloadPhase fetch store k).skippedToMerge = false := by
  rw [downloadPhase_not_all_present fetch store k i hik hmiss]
  refine ⟨?_, ?_, ?_, ?_, ?_, rfl, fun j _ => iterEvents_ne_nil store fetch j, rfl⟩
  · unfold storeAfter
    rcases hfail with h | h | h <;> simp [hik, hmiss, h]
  · intro a hmem
    rw [List.mem_flatMap] at hmem
    obtain ⟨j, _, hmemj⟩ := hmem
    obtain ⟨hji, _, hsucc⟩ := saveSpread_iterEvents hmemj
    subst hji
    rcases hfail with h | h | h <;> rw [h] at hsucc <;> exact FetchResult.noConfusion hsucc
  · intro h
    rw [List.mem_flatMap]
    exact ⟨i, List.mem_range.mpr hik, by unfold iterEvents; rw [hmiss, h]; simp⟩
  · intro h
    rw [List.mem_flatMap]
    exact ⟨i, List.mem_range.mpr hik, by unfold iterEvents; rw [hmiss, h]; simp⟩
  · intro h
    rw [List.mem_flatMap]
    exact ⟨i, List.mem_range.mpr hik, by unfold iterEvents; rw [hmiss, h]; simp⟩

/-- Witness for C7: a 3-spread run with an empty store where fetching
spread 1 fails at the trigger click and the other spreads succeed. -/
theorem spread_failure_containment_witness :
    (downloadPhase (fun n => if n = 1 then .clickError else .success (.pdf [5]))
        (fun _ => none) 3).finalStore 1 = none ∧
    (∀ a, DlEvent.saveSpread 1 a ∉
      (downloadPhase (fun n => if n = 1 then .clickError else .success (.pdf [5]))
        (fun _ => none) 3).events) ∧
    ((fun n => if n = 1 then FetchResult.clickError else .success (.pdf [5])) 1 =
        .clickError → DlEvent.logClickError 1 ∈
      (downloadPhase (fun n => if n = 1 then .clickError else .success (.pdf [5]))
        (fun _ => none) 3).events) ∧
    ((fun n => if n = 1 then FetchResult.clickError else .success (.pdf [5])) 1 =
        .timeoutError → DlEvent.logTimeout 1 ∈
      (downloadPhase (fun n => if n = 1 then .clickError else .success (.pdf [5]))
        (fun _ => none) 3).events) ∧
    ((fun n => if n = 1 then FetchResult.clickError else .success (.pdf [5])) 1 =
        .retrievalError → DlEvent.logSaveError 1 ∈
      (downloadPhase (fun n => if n = 1 then .clickError else .success (.pdf [5]))
        (fun _ => none) 3).events) ∧
    (downloadPhase (fun n => if n = 1 then .clickError else .success (.pdf [5]))
        (fun _ => none) 3).events =
      (List.range 3).flatMap (iterEvents (fun _ => none)
        (fun n => if n = 1 then .clickError else .success (.pdf [5]))) ∧
    (∀ j, j < 3 → iterEvents (fun _ => none)
        (fun n => if n = 1 then .clickError else .success (.pdf [5])) j ≠ []) ∧
    (downloadPhase (fun n => if n = 1 then .clickError else .success (.pdf [5]))
        (fun _ => none) 3).skippedToMerge = false :=
  spread_failure_containment (fun _ => none)
    (fun n => if n = 1 then .clickError else .success (.pdf [5])) 3 1
    (by decide) rfl (Or.inl rfl)

/-! ## Spread filenames sort in index order -/

set_option maxRecDepth 100000 in
theorem spreadFilename_data_adjacent :
    ∀ i, i < 999 → (spreadFilename i).data < (spreadFilename (i + 1)).data := by
  decide

theorem spreadFilename_adjacent (i : Nat) (h : i < 999) :
    spreadFilename i < spreadFilename (i + 1) :=
  String.lt_iff_toList_lt.mpr (spreadFilename_data_adjacent i h)

theorem spreadFilename_mono : ∀ {i j : Nat}, i < j → j ≤ 999 →
    spreadFilename i < spreadFilename j := by
  intro i j
  induction j with
  | zero => intro h _; exact absurd h (Nat.not_lt_zero i)
  | succ n ih =>
      intro hij hj
      rcases Nat.lt_succ_iff_lt_or_eq.mp hij with h | h
      · exact lt_trans (ih h (by omega)) (spreadFilename_adjacent n (by omega))
      · subst h
        exact spreadFilename_adjacent i (by omega)

/-- C1: the spread plan — for `N ≥ 1` total pages and spread size `S ≥ 1`
the planned task count is exactly `ceil(N / S)` (pinned by the two
inequalities and equal to Mathlib's ceiling division), the task indices
are exactly `0 .. count-1`, task `i`'s first-page offset is `i * S`, its
filename is the zero-padded `spread-NNN.pdf`, and for indices up to 999
those filenames are strictly increasing (hence pairwise distinct) in
lexicographic order. -/
theorem spread_plan_spec (N S : Nat) (hN : 1 ≤ N) (hS : 1 ≤ S) :
    (plan N S).length = spreadCount N S ∧
    (plan N S).length = N ⌈/⌉ S ∧
    N ≤ S * (plan N S).length ∧
    S * (plan N S).length < N + S ∧
    (plan N S).map SpreadTask.index = List.range (spreadCount N S) ∧
    (∀ t ∈ plan N S,
      t.pageOffset = t.index * S ∧ t.outputFilename = spreadFilename t.index) ∧
    (∀ i j, i < j → j ≤ 999 → spreadFilename i < spreadFilename j) ∧
    (∀ i j, i ≤ 999 → j ≤ 999 → i ≠ j → spreadFilename i ≠ spreadFilename j) := by
  have hlen : (plan N S).length = (N + S - 1) / S := by
    simp [plan, spreadCount]
  have hd := Nat.div_add_mod (N + S - 1) S
  have hm := Nat.mod_lt (N + S - 1) (show 0 < S by omega)
  refine ⟨by simp [plan], ?_, ?_, ?_, ?_, ?_, ?_, ?_⟩
  · rw [Nat.ceilDiv_eq_add_pred_div, hlen]
  · rw [hlen]
    omega
  · rw [hlen]
    omega
  · simp only [plan, List.map_map]
    have hcomp : (SpreadTask.index ∘ fun i =>
        SpreadTask.mk i (i * S) (spreadFilename i)) = id := rfl
    rw [hcomp, List.map_id]
  · intro t ht
    simp only [plan, List.mem_map] at ht
    obtain ⟨i, _, rfl⟩ := ht
    exact ⟨rfl, rfl⟩
  · intro i j hij hj
    exact spreadFilename_mono hij hj
  · intro i j hi hj hne
    rcases Nat.lt_or_ge i j with h | h
    · exact ne_of_lt (spreadFilename_mono h hj)
    · have h' : j < i := by omega
      exact (ne_of_lt (spreadFilename_mono h' hi)).symm

/-! ## Character facts for title sanitization -/

theorem uint32_le_iff_toNat {a b : UInt32} : a ≤ b ↔ a.toNat ≤ b.toNat := by
  rw [UInt32.le_def, BitVec.le_def]
  exact Iff.rfl

theorem char_toNat_ofNat_of_lt {m : Nat} (h : m < 55296) : (Char.ofNat m).toNat = m := by
  unfold Char.ofNat
  rw [dif_pos (Or.inl h)]
  simp [Char.ofNatAux, Char.toNat, UInt32.toNat]

theorem isUpper_toNat {d : Char} (h : d.isUpper = true) :
    65 ≤ d.toNat ∧ d.toNat ≤ 90 := by
  unfold Char.isUpper at h
  rw [Bool.and_eq_true, decide_eq_true_iff, decide_eq_true_iff] at h
  exact ⟨uint32_le_iff_toNat.mp h.1, uint32_le_iff_toNat.mp h.2⟩

theorem isLower_toNat {d : Char} (h : d.isLower = true) :
    97 ≤ d.toNat ∧ d.toNat ≤ 122 := by
  unfold Char.isLower at h
  rw [Bool.and_eq_true, decide_eq_true_iff, decide_eq_true_iff] at h
  exact ⟨uint32_le_iff_toNat.mp h.1, uint32_le_iff_toNat.mp h.2⟩

theorem isDigit_toNat {d : Char} (h : d.isDigit = true) :
    48 ≤ d.toNat ∧ d.toNat ≤ 57 := by
  unfold Char.isDigit at h
  rw [Bool.and_eq_true, decide_eq_true_iff, decide_eq_true_iff] at h
  exact ⟨uint32_le_iff_toNat.mp h.1, uint32_le_iff_toNat.mp h.2⟩

theorem isLower_of_toNat {d : Char} (h1 : 97 ≤ d.toNat) (h2 : d.toNat ≤ 122) :
    d.isLower = true := by
  unfold Char.isLower
  rw [Bool.and_eq_true, decide_eq_true_iff, decide_eq_true_iff]
  exact ⟨uint32_le_iff_toNat.mpr h1, uint32_le_iff_toNat.mpr h2⟩

/-- A character the sanitizer may output: a decimal digit, a lower-case
letter, or a hyphen. -/
def sanitizedChar (c : Char) : Bool :=
  c.isDigit || c.isLower || c == '-'

theorem sanitizedChar_of_map (d : Char) :
    sanitizedChar (if d.isAlphanum then d.toLower else '-') = true := by
  by_cases h : d.isAlphanum = true
  · rw [if_pos h]
    unfold Char.isAlphanum Char.isAlpha at h
    rw [Bool.or_eq_true, Bool.or_eq_true] at h
    have hlow : ∀ c : Char, c.isLower = true → sanitizedChar c.toLower = true := by
      intro c hc
      obtain ⟨h1, h2⟩ := isLower_toNat hc
      have hno : ¬ (65 ≤ c.toNat ∧ c.toNat ≤ 90) := by omega
      unfold Char.toLower
      rw [if_neg hno]
      unfold sanitizedChar
      rw [hc]
      simp
    have hdig : ∀ c : Char, c.isDigit = true → sanitizedChar c.toLower = true := by
      intro c hc
      obtain ⟨h1, h2⟩ := isDigit_toNat hc
      have hno : ¬ (65 ≤ c.toNat ∧ c.toNat ≤ 90) := by omega
      unfold Char.toLower
      rw [if_neg hno]
      unfold sanitizedChar
      rw [hc]
      simp
    rcases h with (hup | hlo) | hdg
    · obtain ⟨h1, h2⟩ := isUpper_toNat hup
      unfold Char.toLower
      rw [if_pos ⟨h1, h2⟩]
      have hlt : d.toNat + 32 < 55296 := by omega
      have hv := char_toNat_ofNat_of_lt hlt
      have : (Char.ofNat (d.toNat + 32)).isLower = true :=
        isLower_of_toNat (by omega) (by omega)
      unfold sanitizedChar
      rw [this]
      simp
    · exact hlow d hlo
    · exact hdig d hdg
  · rw [if_neg h]
    rfl

/-- C5 counterexample: the code replaces each non-alphanumeric character
with a hyphen instead of removing it, so the spec's example title does not
sanitize to the claimed alphanumeric-only token. -/
theorem sanitizeTitle_cex :
    sanitizeTitle "Het Grote Verhaal! (deel 2)" = "het-grote-verhaal---deel-2-" ∧
    sanitizeTitle "Het Grote Verhaal! (deel 2)" ≠ "hetgroteverhaaldeel2" ∧
    ¬ (∀ c ∈ (sanitizeTitle "Het Grote Verhaal! (deel 2)").data, c.isAlphanum = true) := by
  refine ⟨by decide, by decide, ?_⟩
  intro h
  exact absurd (h '-' (by decide)) (by decide)

/-- C5 amended: the sanitized token keeps the title's length, consists only
of decimal digits, lower-case letters and hyphens (each non-alphanumeric
character becomes a hyphen, nothing is removed), and the spec's example
sanitizes to `het-grote-verhaal---deel-2-`. -/
theorem sanitizeTitle_spec (title : String) :
    (sanitizeTitle title).length = title.length ∧
    (sanitizeTitle title).data.all sanitizedChar = true ∧
    sanitizeTitle "Het Grote Verhaal! (deel 2)" = "het-grote-verhaal---deel-2-" := by
  refine ⟨?_, ?_, by decide⟩
  · show (title.data.map fun c => if c.isAlphanum then c.toLower else '-').length =
      title.data.length
    exact List.length_map _ _
  rw [List.all_eq_true]
  intro c hc
  unfold sanitizeTitle at hc
  simp only [List.mem_map] at hc
  obtain ⟨d, _, rfl⟩ := hc
  exact sanitizedChar_of_map d

/-- C6 counterexample: a page limit of `0` can be given on the CLI
(`node download-book-automated.js <url> 0` parses it as `PAGE_LIMIT = 0`),
but `if (pageLimit)` treats `0` as falsy, so the effective total stays
`120` instead of `min(120, 0) = 0`. -/
theorem page_limit_clamp_cex :
    (parseCli ["https://www.nt2schoolcollectie.nl/boek/9789046905609", "0"]).pageLimit =
      some 0 ∧
    applyPageLimit 120 (some 0) = 120 ∧
    applyPageLimit 120 (some 0) ≠ min 120 0 := by
  refine ⟨by decide, by decide, by decide⟩

/-- C6 amended: when the given page limit is nonzero the effective total
is `min(totalPages, limit)`; a limit of `0` (falsy in JavaScript) is
ignored; with no limit the total is unchanged; and the spec's example
(`totalPages = 120`, `limit = 10`) yields an effective total of 10 and
`ceil(10/2) = 5` planned tasks. -/
theorem page_limit_clamp (tp v : Int) (hv : v ≠ 0) :
    applyPageLimit tp (some v) = min tp v ∧
    applyPageLimit tp none = tp ∧
    applyPageLimit tp (some 0) = tp ∧
    applyPageLimit 120 (some 10) = 10 ∧
    (jsCeilHalf (applyPageLimit 120 (some 10))).toNat = 5 ∧
    (plan 10 2).length = 5 := by
  refine ⟨?_, rfl, rfl, by decide, by decide, by decide⟩
  show (if v = 0 then tp else min tp v) = min tp v
  rw [if_neg hv]

/-- Witness for C6 at `tp = 120`, `v = 10`. -/
theorem page_limit_clamp_witness :
    applyPageLimit 120 (some 10) = min 120 10 ∧
    applyPageLimit 120 none = 120 ∧
    applyPageLimit 120 (some 0) = 120 ∧
    applyPageLimit 120 (some 10) = 10 ∧
    (jsCeilHalf (applyPageLimit 120 (some 10))).toNat = 5 ∧
    (plan 10 2).length = 5 :=
  page_limit_clamp 120 10 (by decide)

/-! ## Exit-path characterizations of `downloadBook` -/

theorem downloadBook_invalidUrl (url : String) (limit : Option Int) (env : Env)
    (hurl : extractBookId url = none) :
    downloadBook url limit env =
      { outcome := .invalidUrl, promptedLogin := false, store := env.initialStore
        dlEvents := [], skippedToMerge := false, merge := none } := by
  unfold downloadBook
  rw [hurl]

theorem downloadBook_noAccess (url : String) (limit : Option Int) (env : Env)
    (id : String) (hurl : extractBookId url = some id)
    (hacc : env.hasPrintAfter = false) :
    downloadBook url limit env =
      { outcome := .exitNoAccess, promptedLogin := needsLogin env
        store := env.initialStore, dlEvents := [], skippedToMerge := false
        merge := none } := by
  unfold downloadBook
  rw [hurl, hacc]
  rfl

theorem downloadBook_badPageCount (url : String) (limit : Option Int) (env : Env)
    (id : String) (hurl : extractBookId url = some id)
    (hacc : env.hasPrintAfter = true) (htp : totalPagesOf env = none) :
    downloadBook url limit env =
      { outcome := .exitBadPageCount, promptedLogin := needsLogin env
        store := env.initialStore, dlEvents := [], skippedToMerge := false
        merge := none } := by
  unfold downloadBook
  rw [hurl, hacc, htp]
  rfl

theorem runBooks_exit (envs : String → Env) (limit : Option Int) (u : String)
    (rest : List String) (acc : List (String × BookRun))
    (h : ((downloadBook u limit (envs u)).outcome).isProcessExit = true) :
    runBooks envs limit (u :: rest) acc =
      .exitDuringBook u (downloadBook u limit (envs u)) := by
  have hz : runBooks envs limit (u :: rest) acc =
      (if ((downloadBook u limit (envs u)).outcome).isProcessExit = true
       then CliOutcome.exitDuringBook u (downloadBook u limit (envs u))
       else runBooks envs limit rest ((u, downloadBook u limit (envs u)) :: acc)) := rfl
  rw [hz, if_pos h]

/-- C9: access denied — for a well-formed book URL, when the capability
marker (the `#print-pdf` trigger) is absent both before and after the
login prompt, the pipeline terminates via `process.exit(1)` with the
spread store untouched (no artifact created), no download event, and no
merge run. -/
theorem access_denied_no_artifacts (url : String) (limit : Option Int) (env : Env)
    (id : String) (hurl : extractBookId url = some id)
    (hbefore : env.hasPrintBefore = false)
    (hafter : env.hasPrintAfter = false) :
    (downloadBook url limit env).outcome = .exitNoAccess ∧
    ((downloadBook url limit env).outcome).isProcessExit = true ∧
    (∀ j, (downloadBook url limit env).store j = env.initialStore j) ∧
    (downloadBook url limit env).dlEvents = [] ∧
    (downloadBook url limit env).merge = none := by
  rw [downloadBook_noAccess url limit env id hurl hafter]
  exact ⟨rfl, rfl, fun _ => rfl, rfl, rfl⟩

/-- All-permissions environment used to instantiate pipeline theorems. -/
def exampleEnv : Env :=
  { hasPrintBefore := true, hasLoginForm := false, hasLoginText := false
    hasPrintAfter := true, detectedTitle := none, detectedPages := some 2
    manualReply := "", fetch := fun _ => .success (.pdf [1, 2])
    initialStore := fun _ => none }

/-- Environment with the capability marker absent before and after login. -/
def deniedEnv : Env :=
  { hasPrintBefore := false, hasLoginForm := true, hasLoginText := false
    hasPrintAfter := false, detectedTitle := none, detectedPages := some 2
    manualReply := "", fetch := fun _ => .success (.pdf [1, 2])
    initialStore := fun _ => none }

/-- Environment whose page count cannot be detected and whose manual reply
does not parse to a positive number. -/
def badCountEnv : Env :=
  { hasPrintBefore := true, hasLoginForm := false, hasLoginText := false
    hasPrintAfter := true, detectedTitle := none, detectedPages := none
    manualReply := "abc", fetch := fun _ => .success (.pdf [1, 2])
    initialStore := fun _ => none }

/-- Witness for C9 on a concrete denied environment. -/
theorem access_denied_no_artifacts_witness :
    (downloadBook "https://www.nt2schoolcollectie.nl/boek/7" none deniedEnv).outcome =
      .exitNoAccess ∧
    ((downloadBook "https://www.nt2schoolcollectie.nl/boek/7" none
      deniedEnv).outcome).isProcessExit = true ∧
    (∀ j, (downloadBook "https://www.nt2schoolcollectie.nl/boek/7" none
      deniedEnv).store j = deniedEnv.initialStore j) ∧
    (downloadBook "https://www.nt2schoolcollectie.nl/boek/7" none deniedEnv).dlEvents = [] ∧
    (downloadBook "https://www.nt2schoolcollectie.nl/boek/7" none deniedEnv).merge = none :=
  access_denied_no_artifacts _ none deniedEnv "7" rfl rfl rfl

/-- C8 counterexample: an invocation whose book URL lacks the `/boek/<id>`
segment does not terminate with a non-zero status and prints no usage
message — `downloadBook` just logs and returns, the run completes, and the
process exits with status 0. -/
theorem invalid_input_exit_cex :
    exitCode (runCli ["https://example.com/nothere"] (fun _ => exampleEnv)) = 0 ∧
    usageShown (runCli ["https://example.com/nothere"] (fun _ => exampleEnv)) = false ∧
    (downloadBook "https://example.com/nothere" none exampleEnv).outcome = .invalidUrl ∧
    BookOutcome.isProcessExit .invalidUrl = false :=
  ⟨rfl, rfl, rfl, rfl⟩

/-- C8 amended: an invocation with no book URL exits with status 1 and the
usage message before touching any book; an undetectable page count with an
invalid manual reply makes `downloadBook` call `process.exit(1)` before
any download operation (store untouched, no event, no merge), and such a
book terminates the whole run with status 1; but a URL missing the
`/boek/<id>` segment is merely skipped — `downloadBook` returns without
exiting, leaving the store untouched. -/
theorem invalid_input_exit_spec :
    (∀ (args : List String) (envs : String → Env),
      (parseCli args).bookUrls = [] →
        runCli args envs = .usageExit ∧
        exitCode (runCli args envs) = 1 ∧
        usageShown (runCli args envs) = true) ∧
    (∀ (url : String) (limit : Option Int) (env : Env) (id : String),
      extractBookId url = some id → env.hasPrintAfter = true →
      totalPagesOf env = none →
        (downloadBook url limit env).outcome = .exitBadPageCount ∧
        ((downloadBook url limit env).outcome).isProcessExit = true ∧
        (∀ j, (downloadBook url limit env).store j = env.initialStore j) ∧
        (downloadBook url limit env).dlEvents = [] ∧
        (downloadBook url limit env).merge = none) ∧
    (∀ (url : String) (limit : Option Int) (env : Env),
      extractBookId url = none →
        (downloadBook url limit env).outcome = .invalidUrl ∧
        ((downloadBook url limit env).outcome).isProcessExit = false ∧
        (∀ j, (downloadBook url limit env).store j = env.initialStore j) ∧
        (downloadBook url limit env).dlEvents = [] ∧
        (downloadBook url limit env).merge = none) ∧
    (∀ (envs : String → Env) (limit : Option Int) (u : String) (rest : List String)
        (acc : List (String × BookRun)),
      ((downloadBook u limit (envs u)).outcome).isProcessExit = true →
        exitCode (runBooks envs limit (u :: rest) acc) = 1) := by
  refine ⟨?_, ?_, ?_, ?_⟩
  · intro args envs h
    have hz : runCli args envs =
        (if ((parseCli args).bookUrls).isEmpty = true then CliOutcome.usageExit
         else runBooks envs (parseCli args).pageLimit (parseCli args).bookUrls []) := rfl
    have hrun : runCli args envs = .usageExit := by
      rw [hz, h]
      rfl
    exact ⟨hrun, by rw [hrun]; rfl, by rw [hrun]; rfl⟩
  · intro url limit env id hurl hacc htp
    rw [downloadBook_badPageCount url limit env id hurl hacc htp]
    exact ⟨rfl, rfl, fun _ => rfl, rfl, rfl⟩
  · intro url limit env hurl
    rw [downloadBook_invalidUrl url limit env hurl]
    exact ⟨rfl, rfl, fun _ => rfl, rfl, rfl⟩
  · intro envs limit u rest acc h
    rw [runBooks_exit envs limit u rest acc h]
    rfl

/-- Witness for C8's amended statement on concrete invocations. -/
theorem invalid_input_exit_spec_witness :
    runCli ["--parallel"] (fun _ => exampleEnv) = .usageExit ∧
    (downloadBook "https://www.nt2schoolcollectie.nl/boek/7" none
      badCountEnv).outcome = .exitBadPageCount ∧
    (downloadBook "https://example.com/nowhere" none exampleEnv).outcome = .invalidUrl ∧
    exitCode (runBooks (fun _ => badCountEnv) none
      ["https://www.nt2schoolcollectie.nl/boek/7"] []) = 1 :=
  ⟨(invalid_input_exit_spec.1 ["--parallel"] (fun _ => exampleEnv) rfl).1,
   (invalid_input_exit_spec.2.1 "https://www.nt2schoolcollectie.nl/boek/7" none
     badCountEnv "7" rfl rfl rfl).1,
   (invalid_input_exit_spec.2.2.1 "https://example.com/nowhere" none exampleEnv rfl).1,
   invalid_input_exit_spec.2.2.2 (fun _ => badCountEnv) none
     "https://www.nt2schoolcollectie.nl/boek/7" [] [] rfl⟩

/-- Witness for C1 at `N = 10`, `S = 2`. -/
theorem spread_plan_spec_witness :
    (plan 10 2).length = spreadCount 10 2 ∧
    (plan 10 2).length = 10 ⌈/⌉ 2 ∧
    10 ≤ 2 * (plan 10 2).length ∧
    2 * (plan 10 2).length < 10 + 2 ∧
    (plan 10 2).map SpreadTask.index = List.range (spreadCount 10 2) ∧
    (∀ t ∈ plan 10 2,
      t.pageOffset = t.index * 2 ∧ t.outputFilename = spreadFilename t.index) ∧
    (∀ i j, i < j → j ≤ 999 → spreadFilename i < spreadFilename j) ∧
    (∀ i j, i ≤ 999 → j ≤ 999 → i ≠ j → spreadFilename i ≠ spreadFilename j) :=
  spread_plan_spec 10 2 (by decide) (by decide)

end NT2
